import Mathlib

/-!
Shallow embedding of the Validoopsie validation engine: the report data
model (`validoopsie/base/results_typedict.py`), the session operations
`__parse_results__`, `add_validation`, `__create_validation_class__` and
`validate` (`validoopsie/validate.py`), and the catalogue rule
`ColumnValuesToBeBetween`
(`validoopsie/validation_catalogue/ValuesValidation/column_values_to_be_between.py`).
Python dicts are modelled as structures with `Option` fields for the
optional (`NotRequired`) keys, the ordered report map as an ordered
association list, exceptions as `Except`, and Python floats as `Rat`.
-/

/-- The inner result dictionary of one executed validation
(`ResultValidationTypedDict`); `NotRequired` keys that are absent are
`none`. Failing item keys are modelled as integers (one integer column
suffices for the claims considered here). -/
structure ResultInner where
  status : String
  message : String
  threshold_pass : Option Bool := none
  failing_items : Option (List Int) := none
  failed_number : Option Nat := none
  frame_row_number : Option Nat := none
  threshold : Option Rat := none
  failed_percentage : Option Rat := none
deriving DecidableEq, Repr

/-- One recorded per-rule entry of the report (`ValidationTypedDict`);
the synthetic entries produced by `add_validation` carry only the
`result` key, their other fields are `none`. -/
structure Entry where
  validation : Option String := none
  impact : Option String := none
  timestamp : Option String := none
  column : Option String := none
  result : ResultInner
deriving DecidableEq, Repr

/-- The `validations` field of the summary: the initial sentinel string
or the list it is replaced with on the first recording. -/
inductive Validations where
  | sentinel (s : String)
  | list (l : List String)
deriving DecidableEq, Repr

/-- The `Summary` dictionary (`SummaryTypedDict`); `failedValidation`
models the `"Failed Validation"` key added by `__parse_results__` on the
first failing recording. -/
structure Summary where
  passed : Option Bool
  validations : Validations
  failedValidation : Option (List String) := none
deriving DecidableEq, Repr

/-- The session report `self.results`: the summary plus the
insertion-ordered map from rule-instance name to entry. -/
structure Report where
  summary : Summary
  entries : List (String × Entry)
deriving DecidableEq, Repr

/-- The summary as initialised by `Validate.__init__`. -/
def initSummary : Summary :=
  { passed := none, validations := .sentinel "No validation checks were added." }

/-- The report of a freshly constructed session. -/
def initReport : Report := { summary := initSummary, entries := [] }

/-- Ordered-dict lookup on the entries list. -/
def lookupEntry (es : List (String × Entry)) (name : String) : Option Entry :=
  match es with
  | [] => none
  | p :: rest => if p.1 = name then some p.2 else lookupEntry rest name

/-- `self.results.update(\x7bname: result\x7d)`: overwrite in place when the
key is present (Python dicts keep the original position), append
otherwise. -/
def updateEntries (es : List (String × Entry)) (name : String) (r : Entry) :
    List (String × Entry) :=
  if es.any (fun p => p.1 = name) then
    es.map (fun p => if p.1 = name then (name, r) else p)
  else es ++ [(name, r)]

/-- `Validate.__parse_results__`: update `Summary.passed` and the failed
list, append the name to `Summary.validations` (turning the sentinel
string into a one-element list on the first recording), then
insert/overwrite the entry under `name`. -/
def parse_results (rep : Report) (result : Entry) (name : String) : Report :=
  let s := rep.summary
  let s1 :=
    if result.result.status = "Fail" then
      { s with passed := some false,
               failedValidation :=
                 some (match s.failedValidation with
                       | none => [name]
                       | some l => l ++ [name]) }
    else if s.passed = none ∧ result.result.status = "Success" then
      { s with passed := some true }
    else s
  let s2 :=
    match s1.validations with
    | .sentinel _ => { s1 with validations := .list [name] }
    | .list l => { s1 with validations := .list (l ++ [name]) }
  { summary := s2, entries := updateEntries rep.entries name result }

/-- ASCII lower-casing of one character, as Python's `str.lower` acts on
the ASCII impact strings used by the engine. -/
def lowerChar (c : Char) : Char :=
  if 'A' ≤ c ∧ c ≤ 'Z' then Char.ofNat (c.toNat + 32) else c

/-- Python's `str.lower` on the (ASCII) impact strings. -/
def lowerString (s : String) : String := String.mk (s.data.map lowerChar)

instance {α β : Type} [DecidableEq α] [DecidableEq β] : DecidableEq (Except α β) := fun
  | .ok a, .ok b =>
      if h : a = b then .isTrue (by rw [h]) else .isFalse (by simp [h])
  | .ok _, .error _ => .isFalse (by simp)
  | .error _, .ok _ => .isFalse (by simp)
  | .error a, .error b =>
      if h : a = b then .isTrue (by rw [h]) else .isFalse (by simp [h])

/-- A Python exception surfacing to the caller of a session method. -/
inductive PyExc where
  | attributeError (msg : String)
  | raised (msg : String)
deriving DecidableEq, Repr

/-- Model of an arbitrary Python object handed to `add_validation`:
which attributes it carries and what its `__execute_check__` does on the
session's frame (`.error` models a raised exception, carrying `str(e)`). -/
structure PyVal where
  hasExecuteCheck : Bool
  isClass : Bool
  dunderName : Option String
  className : String
  execOutcome : Except String Entry
  columnAttr : Option String
deriving DecidableEq, Repr

/-- The try block of `Validate.add_validation`: run `__execute_check__`,
then read `.column` to build the output name; any exception escapes as
its message string and is handled by the except branch. -/
def try_block (v : PyVal) : Except String (Entry × String) :=
  match v.execOutcome with
  | .error e => .error e
  | .ok r =>
    match v.columnAttr with
    | none => .error ("\x27" ++ v.className ++ "\x27 object has no attribute \x27column\x27")
    | some c => .ok (r, v.className ++ "_" ++ c)

/-- The synthetic entry built in the except branch of `add_validation`. -/
def execErrorEntry (className e : String) : Entry :=
  { result := { status := "Fail",
                message := "An error occured while executing " ++ className ++ " - " ++ e } }

/-- The synthetic entry built when the object lacks `__execute_check__`. -/
def invalidEntry (nm : String) : Entry :=
  { result := { status := "Fail",
                message := nm ++ " is not a valid validation check." } }

/-- `Validate.add_validation`. `output_name` starts as the sentinel
`"InvalidValidationCheck"` and is only reassigned inside the try block
(after a successful execution) or when the argument is a class; reading
`__name__` off a non-class raises `AttributeError`. -/
def add_validation (rep : Report) (v : PyVal) : Except PyExc Report :=
  if v.hasExecuteCheck then
    match try_block v with
    | .ok (result, output_name) => .ok (parse_results rep result output_name)
    | .error e =>
        .ok (parse_results rep (execErrorEntry v.className e) "InvalidValidationCheck")
  else
    match v.dunderName with
    | none => .error (.attributeError
        ("\x27" ++ v.className ++ "\x27 object has no attribute \x27__name__\x27"))
    | some nm =>
        let output_name := if v.isClass then nm else "InvalidValidationCheck"
        .ok (parse_results rep (invalidEntry nm) output_name)

/-- A catalogue rule instance as seen by
`Validate.__create_validation_class__` after construction succeeded. -/
structure RuleObj where
  className : String
  column : String
  execOutcome : Except String Entry
deriving DecidableEq, Repr

/-- `Validate.__create_validation_class__`: there is no try/except
around `__execute_check__`, so an exception raised during execution
propagates to the caller instead of being recorded. -/
def create_validation_class (rep : Report) (v : RuleObj) : Except PyExc Report :=
  match v.execOutcome with
  | .error e => .error (.raised e)
  | .ok result => .ok (parse_results rep result (v.className ++ "_" ++ v.column))

/-- The `ValueError`s raised by `Validate.validate`, distinguished by
their raise site. -/
inductive VError where
  | emptySet (msg : String)
  | aggregate (msg : String)
deriving DecidableEq, Repr

/-- The escalation test of the `validate` loop: the entry failed and its
impact (top-level key, defaulting to `"high"` when absent) lower-cases
to `"high"`. -/
def isHighFail (e : Entry) : Bool :=
  e.result.status = "Fail" ∧ lowerString (e.impact.getD "high") = "high"

/-- The `failed_validations` accumulator built by the `validate` loop,
in entry order. -/
def failed_validations (es : List (String × Entry)) : List String :=
  (es.filter (fun p => isHighFail p.2)).map (fun p => p.1)

/-- Python's `repr` of a list of strings, as an f-string renders
`failed_validations`. -/
def pyListRepr (l : List String) : String :=
  "[" ++ String.intercalate ", " (l.map (fun s => "\x27" ++ s ++ "\x27")) ++ "]"

/-- A JSON string literal (the report's strings contain no characters
needing escapes). -/
def jstr (s : String) : String := "\"" ++ s ++ "\""

/-- The fractional digits of a rational, exact up to six places, with
trailing zeros stripped — how `json.dumps` prints the report's floats. -/
def fracDigits (rem d : Nat) : String :=
  let scaled := rem * 1000000 / d
  let padded := String.mk (List.replicate (6 - (toString scaled).length) '0') ++
    toString scaled
  String.mk (padded.data.reverse.dropWhile (fun c => c = '0')).reverse

/-- Decimal rendering of a rational number for the JSON report. -/
def decimalString (q : Rat) : String :=
  let sgn := if q.num < 0 then "-" else ""
  let n := q.num.natAbs
  let d := q.den
  if n % d = 0 then sgn ++ toString (n / d) ++ ".0"
  else sgn ++ toString (n / d) ++ "." ++ fracDigits (n % d) d

/-- One `"key": value` field of a JSON object. -/
def renderField (name v : String) : String := jstr name ++ ": " ++ v

/-- A JSON array of strings. -/
def jsonStrList (l : List String) : String :=
  "[" ++ String.intercalate ", " (l.map jstr) ++ "]"

/-- A JSON array of integers. -/
def jsonIntList (l : List Int) : String :=
  "[" ++ String.intercalate ", " (l.map toString) ++ "]"

/-- JSON serialization of the inner result dictionary, absent optional
keys omitted, keys in dictionary order. -/
def renderResultInner (r : ResultInner) : String :=
  let fields :=
    [some (renderField "status" (jstr r.status)),
     r.threshold_pass.map (fun b =>
       renderField "threshold_pass" (if b then "true" else "false")),
     some (renderField "message" (jstr r.message)),
     r.failing_items.map (fun l => renderField "failing_items" (jsonIntList l)),
     r.failed_number.map (fun n => renderField "failed_number" (toString n)),
     r.frame_row_number.map (fun n => renderField "frame_row_number" (toString n)),
     r.threshold.map (fun q => renderField "threshold" (decimalString q)),
     r.failed_percentage.map (fun q => renderField "failed_percentage" (decimalString q))]
  "\x7b" ++ String.intercalate ", " (fields.filterMap id) ++ "\x7d"

/-- JSON serialization of one report entry. -/
def renderEntry (e : Entry) : String :=
  let fields :=
    [e.validation.map (fun s => renderField "validation" (jstr s)),
     e.impact.map (fun s => renderField "impact" (jstr s)),
     e.timestamp.map (fun s => renderField "timestamp" (jstr s)),
     e.column.map (fun s => renderField "column" (jstr s)),
     some (renderField "result" (renderResultInner e.result))]
  "\x7b" ++ String.intercalate ", " (fields.filterMap id) ++ "\x7d"

/-- JSON serialization of the summary dictionary. -/
def renderSummary (s : Summary) : String :=
  let passedStr := match s.passed with
    | none => "null"
    | some true => "true"
    | some false => "false"
  let valStr := match s.validations with
    | .sentinel str => jstr str
    | .list l => jsonStrList l
  let fields :=
    [some (renderField "passed" passedStr),
     some (renderField "validations" valStr),
     s.failedValidation.map (fun l => renderField "Failed Validation" (jsonStrList l))]
  "\x7b" ++ String.intercalate ", " (fields.filterMap id) ++ "\x7d"

/-- `json.dumps` of the report restricted to the summary plus a given
list of entries (the dict comprehension of `validate`). -/
def json_dumps (s : Summary) (es : List (String × Entry)) : String :=
  "\x7b" ++ String.intercalate ", "
    ((renderField "Summary" (renderSummary s)) ::
      es.map (fun p => renderField p.1 (renderEntry p.2))) ++ "\x7d"

/-- The dict comprehension `\x7bkey: self.results[key] for key in keys\x7d`
restricted to the non-Summary keys, each looked up in the report. -/
def filtered_results (rep : Report) (keys : List String) : List (String × Entry) :=
  keys.filterMap (fun k => (lookupEntry rep.entries k).map (fun e => (k, e)))

/-- `Validate.validate`: raise on an empty rule set, scan the entries
for high-impact failures, and either return the session unchanged or
raise the aggregate error (with the filtered JSON report appended when
`raise_results` is set). -/
def validate (rep : Report) (raise_results : Bool) : Except VError Report :=
  if rep.entries.length = 0 then
    .error (.emptySet "No validation checks were added.")
  else
    let failed := failed_validations rep.entries
    if failed = [] then .ok rep
    else
      let base := "Failed Validation(s): " ++ pyListRepr failed
      let msg := if raise_results then
          base ++ "\n" ++ json_dumps rep.summary (filtered_results rep failed)
        else base
      .error (.aggregate msg)

theorem lookupEntry_append_fresh (es : List (String × Entry)) (n : String) (r : Entry)
    (h : ∀ p ∈ es, p.1 ≠ n) :
    lookupEntry (es ++ [(n, r)]) n = some r := by
  induction es with
  | nil => simp [lookupEntry]
  | cons p rest ih =>
      have hp : p.1 ≠ n := h p (by simp)
      simp only [List.cons_append, lookupEntry, if_neg hp]
      exact ih (fun q hq => h q (by simp [hq]))

theorem lookupEntry_update_self (es : List (String × Entry)) (n : String) (r : Entry) :
    lookupEntry (updateEntries es n r) n = some r := by
  unfold updateEntries
  split
  · rename_i hany
    induction es with
    | nil => simp at hany
    | cons p rest ih =>
        by_cases hp : p.1 = n
        · simp [lookupEntry, hp]
        · simp only [List.any_cons, Bool.or_eq_true, decide_eq_true_eq] at hany
          rcases hany with hany | hany
          · exact absurd hany hp
          · simp only [List.map_cons, if_neg hp, lookupEntry]
            exact ih (by simpa using hany)
  · rename_i hany
    apply lookupEntry_append_fresh
    intro p hp
    simp only [List.any_eq_true, decide_eq_true_eq] at hany
    exact fun hc => hany ⟨p, hp, hc⟩

theorem updateEntries_fresh (es : List (String × Entry)) (n : String) (r : Entry)
    (h : ∀ p ∈ es, p.1 ≠ n) :
    updateEntries es n r = es ++ [(n, r)] := by
  unfold updateEntries
  rw [if_neg]
  simp only [List.any_eq_true, decide_eq_true_eq, not_exists]
  rintro p ⟨hp, hc⟩
  exact h p hp hc

theorem map_overwrite_id (es : List (String × Entry)) (n : String) (r2 : Entry)
    (h : ∀ p ∈ es, p.1 ≠ n) :
    es.map (fun p => if p.1 = n then (n, r2) else p) = es := by
  induction es with
  | nil => rfl
  | cons p rest ih =>
      simp only [List.map_cons, if_neg (h p (by simp))]
      rw [ih (fun q hq => h q (by simp [hq]))]

theorem updateEntries_overwrite_last (es : List (String × Entry)) (n : String)
    (r1 r2 : Entry) (h : ∀ p ∈ es, p.1 ≠ n) :
    updateEntries (es ++ [(n, r1)]) n r2 = es ++ [(n, r2)] := by
  unfold updateEntries
  rw [if_pos (by simp)]
  rw [List.map_append, map_overwrite_id es n r2 h]
  simp

theorem mem_failed_validations (es : List (String × Entry)) (k : String)
    (h : k ∈ failed_validations es) :
    ∃ e, (k, e) ∈ es ∧ isHighFail e = true := by
  simp only [failed_validations, List.mem_map, List.mem_filter] at h
  obtain ⟨p, ⟨hmem, hhf⟩, hk⟩ := h
  refine ⟨p.2, ?_, hhf⟩
  rw [← hk, Prod.mk.eta]
  exact hmem

theorem lookupEntry_isSome_of_mem (es : List (String × Entry)) (k : String) (e : Entry)
    (h : (k, e) ∈ es) : ∃ e2, lookupEntry es k = some e2 := by
  induction es with
  | nil => simp at h
  | cons p rest ih =>
      by_cases hp : p.1 = k
      · exact ⟨p.2, by simp [lookupEntry, hp]⟩
      · simp only [lookupEntry, if_neg hp]
        rcases List.mem_cons.mp h with hh | hh
        · exact absurd (congrArg Prod.fst hh.symm) hp
        · exact ih hh

theorem filtered_results_keys (rep : Report) (keys : List String)
    (h : ∀ k ∈ keys, ∃ e, lookupEntry rep.entries k = some e) :
    (filtered_results rep keys).map (fun p => p.1) = keys := by
  induction keys with
  | nil => rfl
  | cons k rest ih =>
      obtain ⟨e, he⟩ := h k (by simp)
      have hf : (lookupEntry rep.entries k).map (fun e2 => (k, e2)) = some (k, e) := by
        rw [he]; rfl
      simp only [filtered_results, List.filterMap_cons, hf, List.map_cons]
      exact congrArg (fun l => k :: l) (ih (fun q hq => h q (by simp [hq])))

theorem key_unique (es : List (String × Entry)) (hnd : (es.map (fun p => p.1)).Nodup)
    (k : String) (a b : Entry) (ha : (k, a) ∈ es) (hb : (k, b) ∈ es) : a = b := by
  induction es with
  | nil => simp at ha
  | cons p rest ih =>
      simp only [List.map_cons, List.nodup_cons] at hnd
      rcases List.mem_cons.mp ha with h1 | h1 <;> rcases List.mem_cons.mp hb with h2 | h2
      · rw [← h1] at h2
        exact (congrArg Prod.snd h2).symm
      · exfalso
        exact hnd.1 (by rw [← h1]; exact List.mem_map.mpr ⟨(k, b), h2, rfl⟩)
      · exfalso
        exact hnd.1 (by rw [← h2]; exact List.mem_map.mpr ⟨(k, a), h1, rfl⟩)
      · exact ih hnd.2 h1 h2

/-- The `ColumnValuesToBeBetween` rule's constructor parameters
(`column_values_to_be_between.py`); the validated column is modelled as
a list of integers, thresholds and percentages as rationals. -/
structure ColumnValuesToBeBetween where
  column : String
  min_value : Option Int := none
  max_value : Option Int := none
  impact : String := "low"
  threshold : Rat := 0
deriving DecidableEq, Repr

/-- Whether a value violates the configured bounds; a missing bound is
unconstrained. -/
def violatesBounds (minV maxV : Option Int) (v : Int) : Bool :=
  (match minV with | some m => decide (v < m) | none => false) ||
  (match maxV with | some m => decide (m < v) | none => false)

/-- Modelled from the spec: `validoopsie.util.min_max_filter` is absent
from src; per §4.1 and the rule docstring it keeps exactly the rows of
the column whose values are not between the bounds, a missing bound
being unconstrained. -/
def min_max_filter (vals : List Int) (minV maxV : Option Int) : List Int :=
  vals.filter (violatesBounds minV maxV)

/-- One step of `.group_by(column).agg(count)` on the violating rows:
bump the count of an already seen key or append a new key with count
one. -/
def bump (acc : List (Int × Nat)) (v : Int) : List (Int × Nat) :=
  if acc.any (fun p => p.1 = v) then
    acc.map (fun p => if p.1 = v then (p.1, p.2 + 1) else p)
  else acc ++ [(v, 1)]

/-- `.group_by(column).agg(count)`: per-key counts in first-appearance
order. -/
def group_by_count (vals : List Int) : List (Int × Nat) :=
  vals.foldl bump []

/-- `ColumnValuesToBeBetween.__call__`: the violating rows of the
column, grouped by value with per-group counts. -/
def betweenCall (r : ColumnValuesToBeBetween) (frame : List Int) : List (Int × Nat) :=
  group_by_count (min_max_filter frame r.min_value r.max_value)

/-- Modelled from the spec: §4.1 step 2 — `failed_number` is the sum of
the per-group violation counts returned by the rule's query
(`BaseValidation.__execute_check__` is absent from src). -/
def failed_number (r : ColumnValuesToBeBetween) (frame : List Int) : Nat :=
  (betweenCall r frame).foldl (fun a p => a + p.2) 0

/-- Modelled from the spec: §4.1 step 3 — the total row count of the
dataset, the denominator of the failing fraction. -/
def frame_row_number (frame : List Int) : Nat := frame.length

/-- Modelled from the spec: §4.1 step 4 —
`failed_percentage = failed_number / frame_row_number`, defined as 0
when the denominator is 0. -/
def failed_percentage (r : ColumnValuesToBeBetween) (frame : List Int) : Rat :=
  if frame_row_number frame = 0 then 0
  else (failed_number r frame : Rat) / (frame_row_number frame : Rat)

/-- Python's `repr` of an optional numeric bound inside the fail
message f-string. -/
def optIntRepr : Option Int → String
  | none => "None"
  | some n => toString n

/-- `ColumnValuesToBeBetween.fail_message`. -/
def fail_message (r : ColumnValuesToBeBetween) : String :=
  "The column \x27" ++ r.column ++ "\x27 has values that are not between " ++
    optIntRepr r.min_value ++ " and " ++ optIntRepr r.max_value ++ "."

/-- Modelled from the spec: `BaseValidation.__execute_check__`
(`base_validation_parameters.py` is absent from src) — §4.1 steps 1–8:
run the rule's violation query, compute `failed_number`,
`frame_row_number`, `failed_percentage`,
`threshold_pass = failed_percentage <= threshold`, set status to
Success iff `failed_number == 0` or `threshold_pass`, pick the fail or
generic pass message, and return the populated result entry. -/
def execute_check (r : ColumnValuesToBeBetween) (frame : List Int) (ts : String) : Entry :=
  let fn := failed_number r frame
  let fp := failed_percentage r frame
  let st := if fn = 0 ∨ fp ≤ r.threshold then "Success" else "Fail"
  { validation := some "ColumnValuesToBeBetween",
    impact := some r.impact,
    timestamp := some ts,
    column := some r.column,
    result :=
      { status := st,
        message := if st = "Fail" then fail_message r else "All items passed the validation.",
        threshold_pass := some (decide (fp ≤ r.threshold)),
        failing_items := some ((betweenCall r frame).map (fun p => p.1)),
        failed_number := some fn,
        frame_row_number := some (frame_row_number frame),
        threshold := some r.threshold,
        failed_percentage := some fp } }

/-- The list view of the `validations` field: empty for the initial
sentinel string, the list itself afterwards. -/
def valList : Validations → List String
  | .sentinel _ => []
  | .list l => l

/-- Folding a sequence of recordings over a report, one
`__parse_results__` call per executed rule. -/
def record_all (rep : Report) (rs : List (Entry × String)) : Report :=
  rs.foldl (fun r p => parse_results r p.1 p.2) rep

/-- The "values between 1 and 2 on column A" rule with threshold 0. -/
def betweenRuleT0 : ColumnValuesToBeBetween :=
  { column := "A", min_value := some 1, max_value := some 2, threshold := 0 }

/-- The "values between 1 and 2 on column A" rule with threshold 0.6. -/
def betweenRuleT06 : ColumnValuesToBeBetween :=
  { column := "A", min_value := some 1, max_value := some 2, threshold := 3 / 5 }

theorem parse_results_passed (rep : Report) (r : Entry) (n : String) :
    (parse_results rep r n).summary.passed =
      if r.result.status = "Fail" then some false
      else if rep.summary.passed = none ∧ r.result.status = "Success" then some true
      else rep.summary.passed := by
  simp only [parse_results]
  split_ifs <;> cases h : (rep.summary.validations) <;> simp [h]

theorem parse_results_valList (rep : Report) (r : Entry) (n : String) :
    valList (parse_results rep r n).summary.validations =
      valList rep.summary.validations ++ [n] := by
  simp only [parse_results]
  split_ifs <;> cases h : (rep.summary.validations) <;> simp [h, valList]

/-- C2: `threshold_pass` is exactly `failed_percentage <= threshold`,
and the status is Success iff `failed_number == 0` or the threshold
passes, otherwise Fail; on the dataset A = [1,2,3,4,5] the
values-between-1-and-2 rule with threshold 0 yields failed_number 3,
frame_row_number 5, failed_percentage 0.6 and status Fail, while the
same rule with threshold 0.6 yields status Success and threshold_pass
true. -/
theorem c2_threshold_decision_and_between_scenario :
    (∀ (r : ColumnValuesToBeBetween) (frame : List Int) (ts : String),
      (execute_check r frame ts).result.threshold_pass =
        some (decide (failed_percentage r frame ≤ r.threshold)) ∧
      ((execute_check r frame ts).result.status = "Success" ↔
        (failed_number r frame = 0 ∨ failed_percentage r frame ≤ r.threshold)) ∧
      ((execute_check r frame ts).result.status = "Fail" ↔
        ¬ (failed_number r frame = 0 ∨ failed_percentage r frame ≤ r.threshold))) ∧
    ((execute_check betweenRuleT0 [1, 2, 3, 4, 5] "t").result.failed_number = some 3 ∧
     (execute_check betweenRuleT0 [1, 2, 3, 4, 5] "t").result.frame_row_number = some 5 ∧
     (execute_check betweenRuleT0 [1, 2, 3, 4, 5] "t").result.failed_percentage =
       some ((3 : Rat) / 5) ∧
     (execute_check betweenRuleT0 [1, 2, 3, 4, 5] "t").result.status = "Fail") ∧
    ((execute_check betweenRuleT06 [1, 2, 3, 4, 5] "t").result.status = "Success" ∧
     (execute_check betweenRuleT06 [1, 2, 3, 4, 5] "t").result.threshold_pass =
       some true) := by
  constructor
  · intro r frame ts
    refine ⟨rfl, ?_, ?_⟩ <;>
      by_cases h : (failed_number r frame = 0 ∨
          failed_percentage r frame ≤ r.threshold) <;>
        simp [execute_check, h]
  · refine ⟨⟨?_, ?_, ?_, ?_⟩, ?_, ?_⟩ <;>
      simp [execute_check, betweenRuleT0, betweenRuleT06, failed_number, betweenCall,
        group_by_count, min_max_filter, violatesBounds, bump, failed_percentage,
        frame_row_number]

/-- C2 witness: the general clause of the theorem instantiated on the
concrete scenario rule and dataset. -/
theorem c2_witness :
    (execute_check betweenRuleT0 [1, 2, 3, 4, 5] "t").result.threshold_pass =
      some (decide (failed_percentage betweenRuleT0 [1, 2, 3, 4, 5] ≤
        betweenRuleT0.threshold)) :=
  (c2_threshold_decision_and_between_scenario.1 betweenRuleT0 [1, 2, 3, 4, 5] "t").1

/-- C6: `validate` raises the empty-set error, with the message
"No validation checks were added", exactly when the report holds no
entry besides the summary. -/
theorem c6_empty_session_check (rep : Report) (b : Bool) :
    validate rep b = .error (.emptySet "No validation checks were added.") ↔
      rep.entries = [] := by
  unfold validate
  rcases h : rep.entries with _ | ⟨p, rest⟩
  · simp
  · simp only [List.length_cons]
    rw [if_neg (by simp)]
    constructor
    · intro hc
      split at hc <;> simp_all
    · intro hc
      simp at hc

/-- C6 witness: a freshly constructed session evaluates to the
empty-set error. -/
theorem c6_witness :
    validate initReport false = .error (.emptySet "No validation checks were added.") :=
  (c6_empty_session_check initReport false).mpr rfl

theorem record_all_false (rep : Report) (rs : List (Entry × String))
    (h : rep.summary.passed = some false) :
    (record_all rep rs).summary.passed = some false := by
  induction rs generalizing rep with
  | nil => exact h
  | cons p rest ih =>
      apply ih
      rw [parse_results_passed]
      split_ifs with h1 h2
      · rfl
      · rw [h] at h2; simp at h2
      · exact h

/-- C3: `Summary.passed` starts as None, is set to False on any Fail
recording, is set to True only by a Success recorded while it is still
None, and once False it stays False under any further sequence of
recordings. -/
theorem c3_passed_monotone :
    initReport.summary.passed = none ∧
    (∀ (rep : Report) (r : Entry) (n : String), r.result.status = "Fail" →
      (parse_results rep r n).summary.passed = some false) ∧
    (∀ (rep : Report) (r : Entry) (n : String),
      rep.summary.passed = none → r.result.status = "Success" →
      (parse_results rep r n).summary.passed = some true) ∧
    (∀ (rep : Report) (r : Entry) (n : String),
      (parse_results rep r n).summary.passed = some true →
      rep.summary.passed = some true ∨
        (rep.summary.passed = none ∧ r.result.status = "Success")) ∧
    (∀ (rep : Report) (rs : List (Entry × String)),
      rep.summary.passed = some false →
      (record_all rep rs).summary.passed = some false) := by
  refine ⟨rfl, ?_, ?_, ?_, fun rep rs h => record_all_false rep rs h⟩
  · intro rep r n h
    rw [parse_results_passed, if_pos h]
  · intro rep r n h1 h2
    rw [parse_results_passed]
    rw [if_neg (by simp [h2]), if_pos ⟨h1, h2⟩]
  · intro rep r n h
    rw [parse_results_passed] at h
    split_ifs at h with h1 h2
    · simp at h
    · exact .inr h2
    · exact .inl h

/-- C3 witness: after recording a Fail on a fresh session, `passed` is
False and stays False when a Success is recorded afterwards. -/
theorem c3_witness :
    (parse_results initReport (invalidEntry "F") "F").summary.passed = some false ∧
    (record_all (parse_results initReport (invalidEntry "F") "F")
      [({ result := { status := "Success", message := "ok" } }, "S")]).summary.passed =
        some false :=
  ⟨c3_passed_monotone.2.1 initReport (invalidEntry "F") "F" rfl,
   c3_passed_monotone.2.2.2.2 _ _
     (c3_passed_monotone.2.1 initReport (invalidEntry "F") "F" rfl)⟩

/-- C1: given at least one attached rule, `validate` raises the
aggregate error exactly when some recorded entry has status Fail and
(case-insensitively, defaulting to high when absent) high impact;
otherwise it returns the report itself, regardless of failed medium- or
low-impact rules. -/
theorem c1_evaluate_iff_high_impact_fail (rep : Report) (b : Bool)
    (h : rep.entries ≠ []) :
    ((∃ m, validate rep b = .error (.aggregate m)) ↔
      ∃ p ∈ rep.entries, isHighFail p.2 = true) ∧
    (validate rep b = .ok rep ↔ ¬ ∃ p ∈ rep.entries, isHighFail p.2 = true) := by
  have hlen : ¬ rep.entries.length = 0 := by simpa using h
  have hfail : failed_validations rep.entries = [] ↔
      ¬ ∃ p ∈ rep.entries, isHighFail p.2 = true := by
    simp [failed_validations, List.filter_eq_nil_iff]
  unfold validate
  rw [if_neg hlen]
  by_cases hf : failed_validations rep.entries = []
  · simp only [hf, if_pos rfl]
    simp [hfail.mp hf]
  · simp only [if_neg hf]
    have hex : ∃ p ∈ rep.entries, isHighFail p.2 = true :=
      not_not.mp (fun hh => hf (hfail.mpr hh))
    simp [hex]

/-- The report of a session holding exactly one recorded Fail entry
that has no impact field. -/
def repC1 : Report :=
  { summary := initSummary, entries := [("FailRule_A", invalidEntry "FailRule")] }

/-- C1 witness: a session with one recorded Fail entry without an
impact field (so defaulting to high) raises the aggregate error. -/
theorem c1_witness :
    ∃ m, validate repC1 true = .error (.aggregate m) :=
  (c1_evaluate_iff_high_impact_fail repC1 true (by simp [repC1])).1.mpr
    ⟨("FailRule_A", invalidEntry "FailRule"), by simp [repC1], by decide⟩

/-- A catalogue rule instance whose `__execute_check__` raises. -/
def boomRule : RuleObj :=
  { className := "BoomRule", column := "A", execOutcome := .error "boom" }

/-- A custom validation object that exposes `__execute_check__` and a
`column` attribute but whose execution raises. -/
def boomVal : PyVal :=
  { hasExecuteCheck := true, isClass := false, dunderName := none,
    className := "MyRule", execOutcome := .error "boom", columnAttr := some "A" }

/-- C4 counterexample: a catalogue factory attachment whose rule raises
during execution propagates the exception instead of returning the
session — the claim fails on the dynamically bound catalogue path. -/
theorem c4_counterexample :
    create_validation_class initReport boomRule = .error (.raised "boom") := rfl

/-- C4 amended: an exception raised while a rule executes is captured
only on the `add_validation` path — the call returns the session with
the error recorded, and being universally quantified over the incoming
report, subsequent attachments still execute; an exception during
execution through a dynamically bound catalogue factory method
propagates to the caller. -/
theorem c4_amended_capture_only_on_add_validation (rep : Report) (v : PyVal)
    (w : RuleObj) (e : String) (hcap : v.hasExecuteCheck = true) :
    (∃ rep2, add_validation rep v = .ok rep2) ∧
    (v.execOutcome = .error e →
      add_validation rep v =
        .ok (parse_results rep (execErrorEntry v.className e) "InvalidValidationCheck")) ∧
    (w.execOutcome = .error e →
      create_validation_class rep w = .error (.raised e)) := by
  refine ⟨?_, ?_, ?_⟩
  · unfold add_validation
    rw [if_pos hcap]
    rcases htb : try_block v with e1 | ⟨r1, n1⟩
    · exact ⟨_, rfl⟩
    · exact ⟨_, rfl⟩
  · intro herr
    unfold add_validation
    rw [if_pos hcap]
    have htb : try_block v = .error e := by
      unfold try_block
      rw [herr]
    rw [htb]
  · intro herr
    unfold create_validation_class
    rw [herr]

/-- C4 witness: the amended behaviour at concrete inputs — the raising
custom validation is captured and recorded, the raising catalogue rule
propagates. -/
theorem c4_witness :
    add_validation initReport boomVal =
      .ok (parse_results initReport (execErrorEntry "MyRule" "boom")
        "InvalidValidationCheck") ∧
    create_validation_class initReport boomRule = .error (.raised "boom") :=
  ⟨(c4_amended_capture_only_on_add_validation initReport boomVal boomRule "boom"
      rfl).2.1 rfl,
   (c4_amended_capture_only_on_add_validation initReport boomVal boomRule "boom"
      rfl).2.2 rfl⟩

/-- C5 counterexample: when the supplied object's execution raises, the
synthetic Fail result is recorded under the sentinel key
`"InvalidValidationCheck"`, not under class name plus target identifier
— after attaching the raising `MyRule` on column `A`, the report has no
entry under `"MyRule_A"`. -/
theorem c5_counterexample :
    add_validation initReport boomVal =
      .ok (parse_results initReport (execErrorEntry "MyRule" "boom")
        "InvalidValidationCheck") ∧
    lookupEntry (parse_results initReport (execErrorEntry "MyRule" "boom")
      "InvalidValidationCheck").entries "MyRule_A" = none := by
  exact ⟨rfl, by decide⟩

/-- C5 amended: for every object exposing the execution capability
whose execution raises, the exception is captured and a synthetic
result with status Fail and a message embedding the exception text is
recorded under the sentinel key `"InvalidValidationCheck"`. -/
theorem c5_amended_recorded_under_sentinel (rep : Report) (v : PyVal) (e : String)
    (hcap : v.hasExecuteCheck = true) (herr : v.execOutcome = .error e) :
    add_validation rep v =
      .ok (parse_results rep (execErrorEntry v.className e) "InvalidValidationCheck") ∧
    lookupEntry (parse_results rep (execErrorEntry v.className e)
        "InvalidValidationCheck").entries "InvalidValidationCheck" =
      some (execErrorEntry v.className e) ∧
    (execErrorEntry v.className e).result.status = "Fail" ∧
    (execErrorEntry v.className e).result.message =
      "An error occured while executing " ++ v.className ++ " - " ++ e := by
  refine ⟨?_, ?_, rfl, rfl⟩
  · unfold add_validation
    rw [if_pos hcap]
    have htb : try_block v = .error e := by
      unfold try_block
      rw [herr]
    rw [htb]
  · exact lookupEntry_update_self rep.entries "InvalidValidationCheck" _

/-- C5 witness: the amended behaviour at the concrete raising
validation. -/
theorem c5_witness :
    add_validation initReport boomVal =
      .ok (parse_results initReport (execErrorEntry "MyRule" "boom")
        "InvalidValidationCheck") ∧
    lookupEntry (parse_results initReport (execErrorEntry "MyRule" "boom")
        "InvalidValidationCheck").entries "InvalidValidationCheck" =
      some (execErrorEntry "MyRule" "boom") :=
  ⟨(c5_amended_recorded_under_sentinel initReport boomVal "boom" rfl rfl).1,
   (c5_amended_recorded_under_sentinel initReport boomVal "boom" rfl rfl).2.1⟩

/-- C10: when the argument to `add_validation` lacks
`__execute_check__`: a class object gets a Fail result naming the class
recorded under the class's own name and the session is returned, while
a non-class instance that also lacks `__name__` makes `add_validation`
raise `AttributeError` while formatting the fail message, recording
nothing. -/
theorem c10_missing_capability_paths (rep : Report) (v : PyVal) (nm : String) :
    (v.hasExecuteCheck = false → v.isClass = true → v.dunderName = some nm →
      add_validation rep v = .ok (parse_results rep (invalidEntry nm) nm) ∧
      (invalidEntry nm).result.status = "Fail" ∧
      (invalidEntry nm).result.message = nm ++ " is not a valid validation check.") ∧
    (v.hasExecuteCheck = false → v.isClass = false → v.dunderName = none →
      add_validation rep v = .error (.attributeError
        ("\x27" ++ v.className ++ "\x27 object has no attribute \x27__name__\x27"))) := by
  constructor
  · intro hcap hcls hnm
    refine ⟨?_, rfl, rfl⟩
    unfold add_validation
    rw [if_neg (by simp [hcap]), hnm]
    simp [hcls]
  · intro hcap _ hnm
    unfold add_validation
    rw [if_neg (by simp [hcap]), hnm]

/-- A plain class without any validation behaviour, as passed in the
repository's own test of a failing attachment. -/
def failValidationClass : PyVal :=
  { hasExecuteCheck := false, isClass := true, dunderName := some "FailValidation",
    className := "type", execOutcome := .error "", columnAttr := none }

/-- A non-class object lacking both `__execute_check__` and
`__name__`. -/
def namelessInstance : PyVal :=
  { hasExecuteCheck := false, isClass := false, dunderName := none,
    className := "Weird", execOutcome := .error "", columnAttr := none }

/-- C10 witness: both branches at concrete inputs — the plain class is
recorded as a Fail under its own name, the nameless instance raises
`AttributeError`. -/
theorem c10_witness :
    add_validation initReport failValidationClass =
      .ok (parse_results initReport (invalidEntry "FailValidation") "FailValidation") ∧
    add_validation initReport namelessInstance = .error (.attributeError
      ("\x27Weird\x27 object has no attribute \x27__name__\x27")) :=
  ⟨((c10_missing_capability_paths initReport failValidationClass "FailValidation").1
      rfl rfl rfl).1,
   (c10_missing_capability_paths initReport namelessInstance "FailValidation").2
      rfl rfl rfl⟩

/-- A recorded entry with status Success and no impact field. -/
def passEntry : Entry := { result := { status := "Success", message := "ok" } }

/-- A session report holding exactly one high-impact Fail entry and one
passing entry. -/
def repC7 : Report :=
  { summary := { passed := some false,
                 validations := .list ["FailRule_A", "PassRule_B"],
                 failedValidation := some ["FailRule_A"] },
    entries := [("FailRule_A", invalidEntry "FailRule"), ("PassRule_B", passEntry)] }

/-- C7: with `raise_results` true and at least one high-impact failure,
the raised aggregate error message is the failed-names headline plus
the JSON serialization of the report restricted to the Summary entry
and the looked-up entries of the failed high-impact keys, in order; the
keys of that restriction are exactly the failed high-impact
rule-instance keys, each of which names an entry with status Fail and
high impact, and no key of a non-failing entry appears among them. -/
theorem c7_raise_results_filtered_json (rep : Report)
    (hnd : (rep.entries.map (fun p => p.1)).Nodup)
    (h : failed_validations rep.entries ≠ []) :
    validate rep true = .error (.aggregate
      ("Failed Validation(s): " ++ pyListRepr (failed_validations rep.entries) ++ "\n" ++
        json_dumps rep.summary (filtered_results rep (failed_validations rep.entries)))) ∧
    (filtered_results rep (failed_validations rep.entries)).map (fun p => p.1) =
      failed_validations rep.entries ∧
    (∀ k ∈ failed_validations rep.entries,
      ∃ e, (k, e) ∈ rep.entries ∧ e.result.status = "Fail" ∧
        lowerString (e.impact.getD "high") = "high") ∧
    (∀ p ∈ rep.entries, p.2.result.status ≠ "Fail" →
      p.1 ∉ failed_validations rep.entries) := by
  have hne : rep.entries ≠ [] := by
    intro hnil
    apply h
    rw [hnil]
    rfl
  have hlen : ¬ rep.entries.length = 0 := by simpa using hne
  refine ⟨?_, ?_, ?_, ?_⟩
  · unfold validate
    rw [if_neg hlen]
    simp only [if_neg h]
    rw [if_pos trivial]
  · apply filtered_results_keys
    intro k hk
    obtain ⟨e, hmem, _⟩ := mem_failed_validations rep.entries k hk
    exact lookupEntry_isSome_of_mem rep.entries k e hmem
  · intro k hk
    obtain ⟨e, hmem, hhf⟩ := mem_failed_validations rep.entries k hk
    simp only [isHighFail, Bool.decide_and, Bool.and_eq_true, decide_eq_true_eq] at hhf
    exact ⟨e, hmem, hhf.1, hhf.2⟩
  · intro p hp hs hmem
    obtain ⟨e, hmem2, hhf⟩ := mem_failed_validations rep.entries p.1 hmem
    simp only [isHighFail, Bool.decide_and, Bool.and_eq_true, decide_eq_true_eq] at hhf
    have : e = p.2 := key_unique rep.entries hnd p.1 e p.2 hmem2 (by simpa using hp)
    exact hs (by rw [← this]; exact hhf.1)

/-- C7 witness: a session with exactly one high-impact Fail plus one
passing rule raises the aggregate error embedding the filtered JSON,
whose non-Summary keys are exactly the one failed key. -/
theorem c7_witness :
    validate repC7 true = .error (.aggregate
      ("Failed Validation(s): " ++ pyListRepr (failed_validations repC7.entries) ++ "\n" ++
        json_dumps repC7.summary
          (filtered_results repC7 (failed_validations repC7.entries)))) ∧
    (filtered_results repC7 (failed_validations repC7.entries)).map (fun p => p.1) =
      ["FailRule_A"] :=
  ⟨(c7_raise_results_filtered_json repC7 (by decide) (by decide)).1, by decide⟩

/-- C8: re-attaching the same rule with the same target and parameters
records a second result equal to the first except for the timestamp;
the second recording overwrites the first under the same key, the
report keeps a single entry for that key, and `Summary.validations`
lists the rule-instance name twice. -/
theorem c8_duplicate_attachment (rep : Report) (r : ColumnValuesToBeBetween)
    (frame : List Int) (ts1 ts2 : String)
    (hfresh : ∀ p ∈ rep.entries, p.1 ≠ "ColumnValuesToBeBetween_" ++ r.column) :
    execute_check r frame ts1 = { execute_check r frame ts2 with timestamp := some ts1 } ∧
    (parse_results (parse_results rep (execute_check r frame ts1)
        ("ColumnValuesToBeBetween_" ++ r.column)) (execute_check r frame ts2)
        ("ColumnValuesToBeBetween_" ++ r.column)).entries =
      rep.entries ++ [("ColumnValuesToBeBetween_" ++ r.column, execute_check r frame ts2)] ∧
    lookupEntry (parse_results (parse_results rep (execute_check r frame ts1)
        ("ColumnValuesToBeBetween_" ++ r.column)) (execute_check r frame ts2)
        ("ColumnValuesToBeBetween_" ++ r.column)).entries
        ("ColumnValuesToBeBetween_" ++ r.column) = some (execute_check r frame ts2) ∧
    ((parse_results (parse_results rep (execute_check r frame ts1)
        ("ColumnValuesToBeBetween_" ++ r.column)) (execute_check r frame ts2)
        ("ColumnValuesToBeBetween_" ++ r.column)).entries.filter
        (fun p => p.1 = "ColumnValuesToBeBetween_" ++ r.column)).length = 1 ∧
    valList (parse_results (parse_results rep (execute_check r frame ts1)
        ("ColumnValuesToBeBetween_" ++ r.column)) (execute_check r frame ts2)
        ("ColumnValuesToBeBetween_" ++ r.column)).summary.validations =
      valList rep.summary.validations ++
        ["ColumnValuesToBeBetween_" ++ r.column, "ColumnValuesToBeBetween_" ++ r.column] := by
  have hent : (parse_results (parse_results rep (execute_check r frame ts1)
      ("ColumnValuesToBeBetween_" ++ r.column)) (execute_check r frame ts2)
      ("ColumnValuesToBeBetween_" ++ r.column)).entries =
      rep.entries ++ [("ColumnValuesToBeBetween_" ++ r.column, execute_check r frame ts2)] := by
    show updateEntries (parse_results rep (execute_check r frame ts1)
        ("ColumnValuesToBeBetween_" ++ r.column)).entries
        ("ColumnValuesToBeBetween_" ++ r.column) (execute_check r frame ts2) = _
    have h1 : (parse_results rep (execute_check r frame ts1)
        ("ColumnValuesToBeBetween_" ++ r.column)).entries =
        rep.entries ++ [("ColumnValuesToBeBetween_" ++ r.column,
          execute_check r frame ts1)] := by
      show updateEntries rep.entries ("ColumnValuesToBeBetween_" ++ r.column)
          (execute_check r frame ts1) = _
      exact updateEntries_fresh rep.entries _ _ hfresh
    rw [h1]
    exact updateEntries_overwrite_last rep.entries _ _ _ hfresh
  refine ⟨by simp [execute_check], hent, ?_, ?_, ?_⟩
  · rw [hent]
    exact lookupEntry_append_fresh rep.entries _ _ hfresh
  · rw [hent, List.filter_append]
    rw [List.filter_eq_nil_iff.mpr (fun p hp => by simp [hfresh p hp])]
    simp
  · rw [parse_results_valList, parse_results_valList, List.append_assoc]
    rfl

/-- The rule instance used by the C8 witness. -/
def c8rule : ColumnValuesToBeBetween :=
  { column := "B", min_value := some 0, max_value := some 10 }

/-- C8 witness: attaching the same between rule twice on a fresh
session overwrites the entry with the second result and lists the name
twice in the validations list. -/
theorem c8_witness :
    lookupEntry (parse_results (parse_results initReport
        (execute_check c8rule [1] "t1") ("ColumnValuesToBeBetween_" ++ c8rule.column))
        (execute_check c8rule [1] "t2") ("ColumnValuesToBeBetween_" ++ c8rule.column)).entries
        ("ColumnValuesToBeBetween_" ++ c8rule.column) = some (execute_check c8rule [1] "t2") ∧
    valList (parse_results (parse_results initReport
        (execute_check c8rule [1] "t1") ("ColumnValuesToBeBetween_" ++ c8rule.column))
        (execute_check c8rule [1] "t2")
        ("ColumnValuesToBeBetween_" ++ c8rule.column)).summary.validations =
      ["ColumnValuesToBeBetween_B", "ColumnValuesToBeBetween_B"] :=
  ⟨(c8_duplicate_attachment initReport c8rule [1] "t1" "t2" (by simp [initReport])).2.2.1,
   (c8_duplicate_attachment initReport c8rule [1] "t1" "t2"
      (by simp [initReport])).2.2.2.2⟩

/-- C9: `validate` either returns the report exactly as it was — every
entry, the summary and the key order unchanged — or raises; it never
produces a modified report. -/
theorem c9_evaluate_mutates_nothing (rep : Report) (b : Bool) :
    validate rep b = .ok rep ∨ ∃ e, validate rep b = .error e := by
  unfold validate
  split
  · exact .inr ⟨_, rfl⟩
  · dsimp only
    split
    · exact .inl rfl
    · exact .inr ⟨_, rfl⟩
